import Mathlib

/-!
Verification development for a multi-tenant database-as-a-service backend.

The system under study consists of:
* a relational entity store (users, admin accounts, projects, API keys,
  dynamic JSON data) — `drizzle/schema.ts`;
* a persistence access layer of narrow query wrappers — `src/db.ts`;
* an admin identity service (password hashing, admin account lifecycle)
  — `src/auth.ts`;
* a typed procedure router gating admin operations — `src/routers.ts`;
* an API-key-authenticated REST facade — `src/api.ts`.

The embedding is shallow: tables become lists of records, the lazily
connected database handle becomes an `Option DbState` (with `none` meaning
"no datastore connection"), thrown errors become `Except` errors, and the
wall clock, generated key tokens and the bcrypt hash/compare capability are
passed in as explicit parameters.  JavaScript truthiness checks occurring in
the source (`!data`, `value || default`, `if (userId)`) are modelled
faithfully by dedicated helper functions.
-/

/-- A JSON value, as stored in the `json` columns and sent in request
bodies.  Numbers are modelled as integers; only truthiness of the whole
value matters for the claims under study. -/
inductive Json where
  | null : Json
  | bool (b : Bool) : Json
  | num (n : Int) : Json
  | str (s : String) : Json
  | arr (elems : List Json) : Json
  | obj (fields : List (String × Json)) : Json

/-- JavaScript truthiness of a JSON value: `null`, `false`, `0` and the
empty string are falsy; every array and object is truthy. -/
def jsTruthy : Json → Bool
  | .null => false
  | .bool b => b
  | .num n => n != 0
  | .str s => s != ""
  | .arr _ => true
  | .obj _ => true

/-- The `role` enum of the `users` table. -/
inductive Role where
  | user : Role
  | admin : Role
  deriving DecidableEq, Repr

/-- A row of the `users` table (end users authenticated via the external
OAuth flow).  The DB-managed `id` and `updatedAt` columns are omitted; they
are never read by the code under study. -/
structure StoredUser where
  openId : String
  name : Option String
  email : Option String
  loginMethod : Option String
  role : Role
  lastSignedIn : Nat
  createdAt : Nat
  deriving DecidableEq, Repr

/-- A row of the `admin_users` table. -/
structure AdminUser where
  id : Int
  email : String
  passwordHash : String
  name : Option String
  isActive : Bool
  lastSignedIn : Option Nat
  createdAt : Nat
  deriving DecidableEq, Repr

/-- A row of the `projects` table. -/
structure Project where
  id : Int
  adminUserId : Int
  name : String
  description : Option String
  schema : Option Json
  isActive : Bool
  createdAt : Nat

/-- A row of the `api_keys` table.  Permissions are stored as a JSON array
of strings. -/
structure ApiKey where
  id : Int
  projectId : Int
  key : String
  name : String
  permissions : List String
  isActive : Bool
  createdAt : Nat
  deriving DecidableEq, Repr

/-- A row of the `dynamic_data` table. -/
structure DynamicDatum where
  id : Int
  projectId : Int
  userId : Option String
  dataType : Option String
  data : Json
  isPublic : Bool
  createdAt : Nat
  updatedAt : Nat

/-- The whole datastore: one list per table, in insertion order. -/
structure DbState where
  users : List StoredUser
  adminUsers : List AdminUser
  projects : List Project
  apiKeys : List ApiKey
  dynamicData : List DynamicDatum

/-- Errors surfaced through the typed procedure router: the TRPC error
codes thrown by `routers.ts` plus ordinary thrown `Error`s (such as
"Database not available") bubbling up from `db.ts` / `auth.ts`. -/
inductive RtErr where
  | UNAUTHORIZED : RtErr
  | FORBIDDEN : RtErr
  | err (msg : String) : RtErr
  deriving DecidableEq, Repr

/-- The admin session record `{id, email, name}` carried by the
`admin_session` cookie (see `context.ts`). -/
structure AdminSession where
  id : Int
  email : String
  name : Option String
  deriving DecidableEq, Repr

/-- The request context produced by the context builder: an optional
end-user identity and an optional admin session. -/
structure TrpcCtx where
  user : Option StoredUser
  adminSession : Option AdminSession

/-! ## Pure table-level operations (the SQL each `db.ts` wrapper issues) -/

/-- `SELECT * FROM projects WHERE id = ? LIMIT 1` — first matching row. -/
def DbState.findProjectById (st : DbState) (projectId : Int) : Option Project :=
  st.projects.find? (fun p => p.id == projectId)

/-- `SELECT * FROM projects WHERE adminUserId = ?`. -/
def DbState.projectsOfAdmin (st : DbState) (adminUserId : Int) : List Project :=
  st.projects.filter (fun p => p.adminUserId == adminUserId)

/-- `SELECT * FROM api_keys WHERE key = ? LIMIT 1`. -/
def DbState.findApiKeyByKey (st : DbState) (key : String) : Option ApiKey :=
  st.apiKeys.find? (fun k => k.key == key)

/-- `SELECT * FROM api_keys WHERE projectId = ?`. -/
def DbState.apiKeysOfProject (st : DbState) (projectId : Int) : List ApiKey :=
  st.apiKeys.filter (fun k => k.projectId == projectId)

/-- `UPDATE api_keys SET isActive = false WHERE id = ?`. -/
def DbState.revokeApiKeyRow (st : DbState) (apiKeyId : Int) : DbState :=
  { st with apiKeys := st.apiKeys.map (fun k =>
      if k.id == apiKeyId then { k with isActive := false } else k) }

/-- `UPDATE projects SET isActive = false WHERE id = ?` (soft delete). -/
def DbState.softDeleteProject (st : DbState) (projectId : Int) : DbState :=
  { st with projects := st.projects.map (fun p =>
      if p.id == projectId then { p with isActive := false } else p) }

/-- The partial field patch `updateProject` receives from the router:
`{name: input.name, description: input.description, schema: input.schema}`
where each field may be `undefined` (and is then skipped by the `set`). -/
structure ProjectUpdates where
  name : Option String
  description : Option String
  schema : Option Json

/-- `UPDATE projects SET ... WHERE id = ?`, skipping undefined fields. -/
def DbState.patchProject (st : DbState) (projectId : Int) (up : ProjectUpdates) : DbState :=
  { st with projects := st.projects.map (fun p =>
      if p.id == projectId then
        { p with
          name := up.name.getD p.name
          description := match up.description with
            | some d => some d
            | none => p.description
          schema := match up.schema with
            | some s => some s
            | none => p.schema }
      else p) }

/-- `SELECT * FROM dynamic_data WHERE projectId = ?` in insertion order. -/
def DbState.dataOfProject (st : DbState) (projectId : Int) : List DynamicDatum :=
  st.dynamicData.filter (fun d => d.projectId == projectId)

/-- `... LIMIT limit OFFSET offset`: skip `offset` rows, return at most
`limit` rows. -/
def DbState.dataPageOfProject (st : DbState) (projectId : Int) (limit offset : Nat) :
    List DynamicDatum :=
  ((st.dataOfProject projectId).drop offset).take limit

/-- `SELECT * FROM dynamic_data WHERE id = ? LIMIT 1`. -/
def DbState.findDatumById (st : DbState) (dataId : Int) : Option DynamicDatum :=
  st.dynamicData.find? (fun d => d.id == dataId)

/-- `UPDATE dynamic_data SET data = ?, updatedAt = now WHERE id = ?`. -/
def DbState.setDatum (st : DbState) (dataId : Int) (data : Json) (now : Nat) : DbState :=
  { st with dynamicData := st.dynamicData.map (fun d =>
      if d.id == dataId then { d with data := data, updatedAt := now } else d) }

/-- `DELETE FROM dynamic_data WHERE id = ?` (hard delete). -/
def DbState.removeDatum (st : DbState) (dataId : Int) : DbState :=
  { st with dynamicData := st.dynamicData.filter (fun d => !(d.id == dataId)) }

/-- An optional equality filter built by `searchDynamicData`: the condition
is only added when the query value is truthy, so an empty-string filter is
dropped exactly as `if (userId)` drops it. -/
def optFilterMatches (q : Option String) (field : Option String) : Bool :=
  match q with
  | none => true
  | some s => if s == "" then true else field == some s

/-- `SELECT * FROM dynamic_data WHERE projectId = ? AND ...` with the
optional `userId` / `dataType` equality conditions ANDed in. -/
def DbState.searchData (st : DbState) (projectId : Int)
    (userId dataType : Option String) : List DynamicDatum :=
  st.dynamicData.filter (fun d =>
    d.projectId == projectId
      && optFilterMatches userId d.userId
      && optFilterMatches dataType d.dataType)

/-- Next auto-increment id for the `dynamic_data` table. -/
def DbState.nextDataId (st : DbState) : Int :=
  (st.dynamicData.foldl (fun m d => max m d.id) 0) + 1

/-- Next auto-increment id for the `api_keys` table. -/
def DbState.nextApiKeyId (st : DbState) : Int :=
  (st.apiKeys.foldl (fun m k => max m k.id) 0) + 1

/-- Next auto-increment id for the `projects` table. -/
def DbState.nextProjectId (st : DbState) : Int :=
  (st.projects.foldl (fun m p => max m p.id) 0) + 1

/-- Next auto-increment id for the `admin_users` table. -/
def DbState.nextAdminId (st : DbState) : Int :=
  (st.adminUsers.foldl (fun m a => max m a.id) 0) + 1

/-- `INSERT INTO dynamic_data ...` with the `isPublic || false` default and
DB-supplied timestamps. -/
def DbState.insertDatum (st : DbState) (projectId : Int) (data : Json)
    (userId dataType : Option String) (isPublic : Option Bool) (now : Nat) : DbState :=
  { st with dynamicData := st.dynamicData ++
      [{ id := st.nextDataId
         projectId := projectId
         userId := userId
         dataType := dataType
         data := data
         isPublic := isPublic.getD false
         createdAt := now
         updatedAt := now }] }

/-! ## Persistence access layer (`src/db.ts`)

Every wrapper receives the lazily initialized connection handle as an
`Option DbState`; `none` models "no datastore connection".  Wrappers that
only read return an `Except RtErr` result; wrappers that write additionally
return the (possibly unchanged) handle. -/

namespace Db

/-- The unavailability error every `db.ts` helper other than `upsertUser`
and `getUserByOpenId` throws when `getDb()` yields no connection. -/
def unavailable : RtErr := .err "Database not available"

/-- The argument record of `upsertUser` (`InsertUser`).  For the nullable
text columns, `none` models an `undefined` (absent) field, `some none`
models an explicit `null`, and `some (some s)` a string value. -/
structure InsertUser where
  openId : String
  name : Option (Option String) := none
  email : Option (Option String) := none
  loginMethod : Option (Option String) := none
  role : Option Role := none
  lastSignedIn : Option Nat := none

/-- The `updateSet` record `upsertUser` builds: a field is `some v` exactly
when `updateSet[field] = v` was assigned. -/
structure UserUpdateSet where
  name : Option (Option String) := none
  email : Option (Option String) := none
  loginMethod : Option (Option String) := none
  role : Option Role := none
  lastSignedIn : Option Nat := none
  deriving DecidableEq, Repr

/-- Builds `updateSet` exactly as `upsertUser` does: the three nullable
text fields are copied when supplied (the code's `value ?? null`
normalization is the identity on this encoding), `lastSignedIn` is copied
when supplied, `role` is copied when supplied and otherwise set to `admin`
when the openId matches the configured owner openId, and finally
`lastSignedIn` is set to `now` when the set would otherwise be empty. -/
def computeUpdateSet (ownerOpenId : String) (now : Nat) (u : InsertUser) :
    UserUpdateSet :=
  let base : UserUpdateSet :=
    { name := u.name
      email := u.email
      loginMethod := u.loginMethod
      lastSignedIn := u.lastSignedIn
      role := match u.role with
        | some r => some r
        | none => if u.openId == ownerOpenId then some .admin else none }
  if base = {} then { base with lastSignedIn := some now } else base

/-- `ON DUPLICATE KEY UPDATE` application of an update set to a stored
user row. -/
def applyUserUpdate (r : StoredUser) (s : UserUpdateSet) : StoredUser :=
  { r with
    name := s.name.getD r.name
    email := s.email.getD r.email
    loginMethod := s.loginMethod.getD r.loginMethod
    role := s.role.getD r.role
    lastSignedIn := s.lastSignedIn.getD r.lastSignedIn }

/-- The `values` record inserted on first sight: supplied fields, the
owner-openId role elevation, the `lastSignedIn` fallback to `now`
(`!values.lastSignedIn`), and the column defaults for the rest. -/
def insertedUser (ownerOpenId : String) (now : Nat) (u : InsertUser) : StoredUser :=
  { openId := u.openId
    name := u.name.getD none
    email := u.email.getD none
    loginMethod := u.loginMethod.getD none
    role := match u.role with
      | some r => r
      | none => if u.openId == ownerOpenId then .admin else .user
    lastSignedIn := u.lastSignedIn.getD now
    createdAt := now }

/-- `upsertUser`: throws when `openId` is falsy, silently no-ops (returns
normally without writing) when the datastore is unavailable, and otherwise
performs `INSERT ... ON DUPLICATE KEY UPDATE` keyed on the unique
`openId`. -/
def upsertUser (ownerOpenId : String) (now : Nat) (u : InsertUser)
    (db : Option DbState) : Except RtErr Unit × Option DbState :=
  if u.openId == "" then
    (.error (.err "User openId is required for upsert"), db)
  else
    match db with
    | none => (.ok (), none)
    | some st =>
      let s := computeUpdateSet ownerOpenId now u
      if st.users.any (fun r => r.openId == u.openId) then
        (.ok (), some { st with users := st.users.map (fun r =>
          if r.openId == u.openId then applyUserUpdate r s else r) })
      else
        (.ok (), some { st with users := st.users ++ [insertedUser ownerOpenId now u] })

/-- `getUserByOpenId`: returns `undefined` (here `none`) both when the
datastore is unavailable and when no row matches; it never throws. -/
def getUserByOpenId (db : Option DbState) (openId : String) :
    Except RtErr (Option StoredUser) :=
  match db with
  | none => .ok none
  | some st => .ok (st.users.find? (fun r => r.openId == openId))

/-- `createProject`: inserts an active project owned by the given admin. -/
def createProject (db : Option DbState) (adminUserId : Int) (name : String)
    (description : Option String) (schema : Option Json) (now : Nat) :
    Except RtErr Unit × Option DbState :=
  match db with
  | none => (.error unavailable, none)
  | some st =>
    (.ok (), some { st with projects := st.projects ++
      [{ id := st.nextProjectId
         adminUserId := adminUserId
         name := name
         description := description
         schema := schema
         isActive := true
         createdAt := now }] })

/-- `getProjectsByAdminId`. -/
def getProjectsByAdminId (db : Option DbState) (adminUserId : Int) :
    Except RtErr (List Project) :=
  match db with
  | none => .error unavailable
  | some st => .ok (st.projectsOfAdmin adminUserId)

/-- `getProjectById`: `null` (here `none`) when no row matches. -/
def getProjectById (db : Option DbState) (projectId : Int) :
    Except RtErr (Option Project) :=
  match db with
  | none => .error unavailable
  | some st => .ok (st.findProjectById projectId)

/-- `updateProject` with the partial field patch the router passes. -/
def updateProject (db : Option DbState) (projectId : Int) (up : ProjectUpdates) :
    Except RtErr Unit × Option DbState :=
  match db with
  | none => (.error unavailable, none)
  | some st => (.ok (), some (st.patchProject projectId up))

/-- `deleteProject`: soft delete via the active flag. -/
def deleteProject (db : Option DbState) (projectId : Int) :
    Except RtErr Unit × Option DbState :=
  match db with
  | none => (.error unavailable, none)
  | some st => (.ok (), some (st.softDeleteProject projectId))

/-- `createApiKey`: the generated `sk_<timestamp>_<random>` token is passed
in as `key` (time and randomness are environment inputs); permissions
default to read+write. -/
def createApiKey (db : Option DbState) (projectId : Int) (name : String)
    (permissions : Option (List String)) (key : String) (now : Nat) :
    Except RtErr Unit × Option DbState :=
  match db with
  | none => (.error unavailable, none)
  | some st =>
    (.ok (), some { st with apiKeys := st.apiKeys ++
      [{ id := st.nextApiKeyId
         projectId := projectId
         key := key
         name := name
         permissions := permissions.getD ["read", "write"]
         isActive := true
         createdAt := now }] })

/-- `getApiKeysByProjectId`. -/
def getApiKeysByProjectId (db : Option DbState) (projectId : Int) :
    Except RtErr (List ApiKey) :=
  match db with
  | none => .error unavailable
  | some st => .ok (st.apiKeysOfProject projectId)

/-- `getApiKeyByKey`: `null` (here `none`) when no row matches. -/
def getApiKeyByKey (db : Option DbState) (key : String) :
    Except RtErr (Option ApiKey) :=
  match db with
  | none => .error unavailable
  | some st => .ok (st.findApiKeyByKey key)

/-- `revokeApiKey`: clears the active flag, never deletes the row. -/
def revokeApiKey (db : Option DbState) (apiKeyId : Int) :
    Except RtErr Unit × Option DbState :=
  match db with
  | none => (.error unavailable, none)
  | some st => (.ok (), some (st.revokeApiKeyRow apiKeyId))

/-- `insertDynamicData`. -/
def insertDynamicData (db : Option DbState) (projectId : Int) (data : Json)
    (userId dataType : Option String) (isPublic : Option Bool) (now : Nat) :
    Except RtErr Unit × Option DbState :=
  match db with
  | none => (.error unavailable, none)
  | some st => (.ok (), some (st.insertDatum projectId data userId dataType isPublic now))

/-- `getDynamicDataByProjectId` with its `LIMIT`/`OFFSET` page. -/
def getDynamicDataByProjectId (db : Option DbState) (projectId : Int)
    (limit offset : Nat) : Except RtErr (List DynamicDatum) :=
  match db with
  | none => .error unavailable
  | some st => .ok (st.dataPageOfProject projectId limit offset)

/-- `getDynamicDataById`. -/
def getDynamicDataById (db : Option DbState) (dataId : Int) :
    Except RtErr (Option DynamicDatum) :=
  match db with
  | none => .error unavailable
  | some st => .ok (st.findDatumById dataId)

/-- `updateDynamicData`: replaces the payload and refreshes `updatedAt`. -/
def updateDynamicData (db : Option DbState) (dataId : Int) (data : Json)
    (now : Nat) : Except RtErr Unit × Option DbState :=
  match db with
  | none => (.error unavailable, none)
  | some st => (.ok (), some (st.setDatum dataId data now))

/-- `deleteDynamicData`: hard delete. -/
def deleteDynamicData (db : Option DbState) (dataId : Int) :
    Except RtErr Unit × Option DbState :=
  match db with
  | none => (.error unavailable, none)
  | some st => (.ok (), some (st.removeDatum dataId))

/-- `searchDynamicData` with its optional ANDed equality filters. -/
def searchDynamicData (db : Option DbState) (projectId : Int)
    (userId dataType : Option String) : Except RtErr (List DynamicDatum) :=
  match db with
  | none => .error unavailable
  | some st => .ok (st.searchData projectId userId dataType)

end Db

/-! ## Admin identity service (`src/auth.ts`)

`hashPassword` / `comparePassword` wrap bcrypt, an opaque salted one-way
hash; they are passed in as explicit function parameters. -/

namespace Auth

/-- `email.split("@")[0]`: the substring of the email before the first
`@` (the whole string when no `@` occurs). -/
def localPart (email : String) : String :=
  String.mk (email.data.takeWhile (fun c => !(c == '@')))

/-- The stored name: `name || email.split("@")[0]` — a missing (or falsy
empty) name defaults to the local part of the email. -/
def defaultedName (name : Option String) (email : String) : String :=
  match name with
  | some n => if n == "" then localPart email else n
  | none => localPart email

/-- The `INSERT ... ON DUPLICATE KEY UPDATE` that `createAdminUser` issues,
keyed on the unique `email` column: on conflict only `passwordHash` and
`name` are overwritten; otherwise a fresh active row is inserted. -/
def upsertAdminRow (rows : List AdminUser) (email hashedPassword storedName : String)
    (newId : Int) (now : Nat) : List AdminUser :=
  if rows.any (fun a => a.email == email) then
    rows.map (fun a =>
      if a.email == email then
        { a with passwordHash := hashedPassword, name := some storedName }
      else a)
  else
    rows ++
      [{ id := newId
         email := email
         passwordHash := hashedPassword
         name := some storedName
         isActive := true
         lastSignedIn := none
         createdAt := now }]

/-- `createAdminUser`: throws on unavailability, hashes the password with
the supplied bcrypt capability, then upserts keyed on email. -/
def createAdminUser (hashPassword : String → String) (db : Option DbState)
    (email password : String) (name : Option String) (now : Nat) :
    Except RtErr Unit × Option DbState :=
  match db with
  | none => (.error Db.unavailable, none)
  | some st =>
    let hashedPassword := hashPassword password
    (.ok (), some { st with adminUsers :=
      (upsertAdminRow st.adminUsers email hashedPassword
        (defaultedName name email) st.nextAdminId now) })

/-- `SELECT * FROM admin_users WHERE email = ? LIMIT 1`. -/
def findAdminByEmail (st : DbState) (email : String) : Option AdminUser :=
  st.adminUsers.find? (fun a => a.email == email)

/-- `authenticateAdmin`: null on unknown email, inactive account, or
failed hash comparison; on success refreshes `lastSignedIn` to now and
returns the reduced `{id, email, name}` record (the `AdminSession` type
has no password-hash field at all). -/
def authenticateAdmin (comparePassword : String → String → Bool) (now : Nat)
    (db : Option DbState) (email password : String) :
    Except RtErr (Option AdminSession) × Option DbState :=
  match db with
  | none => (.error Db.unavailable, none)
  | some st =>
    match findAdminByEmail st email with
    | none => (.ok none, some st)
    | some admin =>
      if !admin.isActive then (.ok none, some st)
      else if !(comparePassword password admin.passwordHash) then (.ok none, some st)
      else
        (.ok (some { id := admin.id, email := admin.email, name := admin.name }),
         some { st with adminUsers := st.adminUsers.map (fun a =>
           if a.id == admin.id then { a with lastSignedIn := some now } else a) })

/-- `getAdminById`: null for an unknown id, never a thrown error. -/
def getAdminById (db : Option DbState) (id : Int) :
    Except RtErr (Option AdminUser) :=
  match db with
  | none => .error Db.unavailable
  | some st => .ok (st.adminUsers.find? (fun a => a.id == id))

end Auth

/-! ## Typed procedure router (`src/routers.ts`) -/

namespace Routers

/-- The `adminProcedure` middleware: `if (!ctx.user || !ctx.adminSession)
throw UNAUTHORIZED` — the body only runs when both identities are
present. -/
def adminProcedure (body : TrpcCtx → Option DbState → Except RtErr α × Option DbState)
    (ctx : TrpcCtx) (db : Option DbState) : Except RtErr α × Option DbState :=
  if ctx.user.isNone || ctx.adminSession.isNone then (.error .UNAUTHORIZED, db)
  else body ctx db

/-- `project.adminUserId !== ctx.adminSession?.id` (optional chaining: a
missing session compares unequal to any numeric id). -/
def sessionOwns (ctx : TrpcCtx) (p : Project) : Bool :=
  match ctx.adminSession with
  | some s => p.adminUserId == s.id
  | none => false

/-- `projects.get`: re-fetches the project and yields FORBIDDEN when it is
absent or owned by a different admin. -/
def projectsGet (ctx : TrpcCtx) (projectId : Int) (db : Option DbState) :
    Except RtErr Project × Option DbState :=
  adminProcedure (fun ctx db =>
    match Db.getProjectById db projectId with
    | .error e => (.error e, db)
    | .ok none => (.error .FORBIDDEN, db)
    | .ok (some project) =>
      if !(sessionOwns ctx project) then (.error .FORBIDDEN, db)
      else (.ok project, db)) ctx db

/-- `projects.update`: ownership check, then partial patch. -/
def projectsUpdate (ctx : TrpcCtx) (projectId : Int) (up : ProjectUpdates)
    (db : Option DbState) : Except RtErr Unit × Option DbState :=
  adminProcedure (fun ctx db =>
    match Db.getProjectById db projectId with
    | .error e => (.error e, db)
    | .ok none => (.error .FORBIDDEN, db)
    | .ok (some project) =>
      if !(sessionOwns ctx project) then (.error .FORBIDDEN, db)
      else Db.updateProject db projectId up) ctx db

/-- `projects.delete`: ownership check, then soft delete. -/
def projectsDelete (ctx : TrpcCtx) (projectId : Int) (db : Option DbState) :
    Except RtErr Unit × Option DbState :=
  adminProcedure (fun ctx db =>
    match Db.getProjectById db projectId with
    | .error e => (.error e, db)
    | .ok none => (.error .FORBIDDEN, db)
    | .ok (some project) =>
      if !(sessionOwns ctx project) then (.error .FORBIDDEN, db)
      else Db.deleteProject db projectId) ctx db

/-- `apiKeys.list`: ownership check on the target project, then list. -/
def apiKeysList (ctx : TrpcCtx) (projectId : Int) (db : Option DbState) :
    Except RtErr (List ApiKey) × Option DbState :=
  adminProcedure (fun ctx db =>
    match Db.getProjectById db projectId with
    | .error e => (.error e, db)
    | .ok none => (.error .FORBIDDEN, db)
    | .ok (some project) =>
      if !(sessionOwns ctx project) then (.error .FORBIDDEN, db)
      else
        match Db.getApiKeysByProjectId db projectId with
        | .error e => (.error e, db)
        | .ok keys => (.ok keys, db)) ctx db

/-- `apiKeys.create`: ownership check, then key creation. -/
def apiKeysCreate (ctx : TrpcCtx) (projectId : Int) (name : String)
    (permissions : Option (List String)) (key : String) (now : Nat)
    (db : Option DbState) : Except RtErr Unit × Option DbState :=
  adminProcedure (fun ctx db =>
    match Db.getProjectById db projectId with
    | .error e => (.error e, db)
    | .ok none => (.error .FORBIDDEN, db)
    | .ok (some project) =>
      if !(sessionOwns ctx project) then (.error .FORBIDDEN, db)
      else Db.createApiKey db projectId name permissions key now) ctx db

/-- `apiKeys.revoke`: delegates straight to `revokeApiKey` — the mutation
handler performs no project re-fetch and no ownership comparison. -/
def apiKeysRevoke (ctx : TrpcCtx) (apiKeyId : Int) (db : Option DbState) :
    Except RtErr Unit × Option DbState :=
  adminProcedure (fun _ db => Db.revokeApiKey db apiKeyId) ctx db

/-- `data.list`: ownership check, then the paginated page. -/
def dataList (ctx : TrpcCtx) (projectId : Int) (limit offset : Nat)
    (db : Option DbState) : Except RtErr (List DynamicDatum) × Option DbState :=
  adminProcedure (fun ctx db =>
    match Db.getProjectById db projectId with
    | .error e => (.error e, db)
    | .ok none => (.error .FORBIDDEN, db)
    | .ok (some project) =>
      if !(sessionOwns ctx project) then (.error .FORBIDDEN, db)
      else
        match Db.getDynamicDataByProjectId db projectId limit offset with
        | .error e => (.error e, db)
        | .ok page => (.ok page, db)) ctx db

/-- `data.create`: ownership check, then insertion. -/
def dataCreate (ctx : TrpcCtx) (projectId : Int) (data : Json)
    (userId dataType : Option String) (isPublic : Option Bool) (now : Nat)
    (db : Option DbState) : Except RtErr Unit × Option DbState :=
  adminProcedure (fun ctx db =>
    match Db.getProjectById db projectId with
    | .error e => (.error e, db)
    | .ok none => (.error .FORBIDDEN, db)
    | .ok (some project) =>
      if !(sessionOwns ctx project) then (.error .FORBIDDEN, db)
      else Db.insertDynamicData db projectId data userId dataType isPublic now) ctx db

/-- `data.update`: delegates straight to `updateDynamicData` — no project
re-fetch, no ownership comparison. -/
def dataUpdate (ctx : TrpcCtx) (dataId : Int) (data : Json) (now : Nat)
    (db : Option DbState) : Except RtErr Unit × Option DbState :=
  adminProcedure (fun _ db => Db.updateDynamicData db dataId data now) ctx db

/-- `data.delete`: delegates straight to `deleteDynamicData` — no project
re-fetch, no ownership comparison. -/
def dataDelete (ctx : TrpcCtx) (dataId : Int) (db : Option DbState) :
    Except RtErr Unit × Option DbState :=
  adminProcedure (fun _ db => Db.deleteDynamicData db dataId) ctx db

/-- `data.search`: ownership check, then the filtered search. -/
def dataSearch (ctx : TrpcCtx) (projectId : Int) (userId dataType : Option String)
    (db : Option DbState) : Except RtErr (List DynamicDatum) × Option DbState :=
  adminProcedure (fun ctx db =>
    match Db.getProjectById db projectId with
    | .error e => (.error e, db)
    | .ok none => (.error .FORBIDDEN, db)
    | .ok (some project) =>
      if !(sessionOwns ctx project) then (.error .FORBIDDEN, db)
      else
        match Db.searchDynamicData db projectId userId dataType with
        | .error e => (.error e, db)
        | .ok results => (.ok results, db)) ctx db

end Routers

/-! ## External REST facade (`src/api.ts`)

Handlers run only once the middleware has resolved an API key, which
requires a live datastore; they are therefore modelled over a `DbState`
directly.  Query-string parameters arrive as the result of `parseInt`:
`none` models `NaN` (absent or unparsable parameter). -/

namespace Api

/-- `parseInt(q) || default`: the default is used for `NaN` (absent or
unparsable input) and — `0` being falsy in JavaScript — also when the
parameter parses to zero. -/
def jsParseIntOr (q : Option Int) (default : Int) : Int :=
  match q with
  | none => default
  | some v => if v == 0 then default else v

/-- `Math.min(parseInt(req.query.limit) || 100, 1000)`. -/
def effectiveLimit (qlimit : Option Int) : Int :=
  min (jsParseIntOr qlimit 100) 1000

/-- `parseInt(req.query.offset) || 0`. -/
def effectiveOffset (qoffset : Option Int) : Int :=
  jsParseIntOr qoffset 0

/-- Modelled from the claim's words, for comparison with `effectiveLimit`:
"the query's limit clamped to a maximum of 1000, defaulting to 100 when
the limit query parameter is absent or unparsable". -/
def claimedEffectiveLimit (qlimit : Option Int) : Int :=
  match qlimit with
  | none => 100
  | some v => min v 1000

/-- The `authenticateApiKey` middleware.  The header value is `none` when
the `X-API-Key` header is absent; note that the code's `if (!apiKey)`
check also fires on a present-but-empty header value. -/
def authenticateApiKey (st : DbState) (header : Option String) :
    Except (Nat × String) ApiKey :=
  match header with
  | none => .error (401, "Missing API key")
  | some apiKey =>
    if apiKey == "" then .error (401, "Missing API key")
    else
      match st.findApiKeyByKey apiKey with
      | none => .error (401, "Invalid or revoked API key")
      | some keyData =>
        if !keyData.isActive then .error (401, "Invalid or revoked API key")
        else .ok keyData

/-- The `pagination` object of the list response. -/
structure Pagination where
  limit : Int
  offset : Int
  total : Nat
  deriving DecidableEq, Repr

/-- The success payload of `GET /v1/data`. -/
structure ListPayload where
  data : List DynamicDatum
  pagination : Pagination

/-- An HTTP response: a success status with a payload, or an error status
with the `{error: message}` body. -/
inductive ApiResp (α : Type) where
  | ok (status : Nat) (payload : α) : ApiResp α
  | fail (status : Nat) (error : String) : ApiResp α

/-- `GET /v1/data`: authenticates the key, computes the effective limit
and offset, fetches one page of the key's project's data, and reports
`total` as the length of that very page. -/
def listData (st : DbState) (header : Option String) (qlimit qoffset : Option Int) :
    ApiResp ListPayload :=
  match authenticateApiKey st header with
  | .error (status, msg) => .fail status msg
  | .ok keyData =>
    let limit := effectiveLimit qlimit
    let offset := effectiveOffset qoffset
    let data := st.dataPageOfProject keyData.projectId limit.toNat offset.toNat
    .ok 200 { data := data
              pagination := { limit := limit, offset := offset, total := data.length } }

/-- The JSON body of the create/update data endpoints; a `none` field
models an absent key. -/
structure DataBody where
  data : Option Json := none
  userId : Option String := none
  dataType : Option String := none
  isPublic : Option Bool := none

/-- `!data` on the request body: true when the `data` field is absent or
holds a falsy JSON value (`null`, `false`, `0`, `""`). -/
def bodyDataFalsy (body : DataBody) : Bool :=
  match body.data with
  | none => true
  | some j => !(jsTruthy j)

/-- `POST /api/v1/data`: 400 when `!data`, otherwise inserts the payload
into the key's project and answers 201. -/
def postData (st : DbState) (header : Option String) (body : DataBody) (now : Nat) :
    ApiResp Unit × DbState :=
  match authenticateApiKey st header with
  | .error (status, msg) => (.fail status msg, st)
  | .ok keyData =>
    if bodyDataFalsy body then (.fail 400 "Data field is required", st)
    else
      match body.data with
      | none => (.fail 400 "Data field is required", st)
      | some j =>
        (.ok 201 (),
         st.insertDatum keyData.projectId j body.userId body.dataType body.isPublic now)

/-- `PUT /api/v1/data/:id`: 400 when `!data`, otherwise replaces the
payload of the row with the given id. -/
def putData (st : DbState) (header : Option String) (dataId : Int)
    (body : DataBody) (now : Nat) : ApiResp Unit × DbState :=
  match authenticateApiKey st header with
  | .error (status, msg) => (.fail status msg, st)
  | .ok _ =>
    if bodyDataFalsy body then (.fail 400 "Data field is required", st)
    else
      match body.data with
      | none => (.fail 400 "Data field is required", st)
      | some j => (.ok 200 (), st.setDatum dataId j now)

end Api

/-! ## Concrete fixtures

Small closed scenarios used to evaluate the model on explicit inputs. -/

namespace Fx

/-- A resolved end-user identity for request contexts. -/
def user0 : StoredUser :=
  { openId := "oid-0", name := none, email := none, loginMethod := none
    role := .user, lastSignedIn := 0, createdAt := 0 }

/-- The admin session of the admin owning project 1. -/
def sess1 : AdminSession := { id := 1, email := "a@x.com", name := some "A" }

/-- The admin session of a different admin (id 2). -/
def sess2 : AdminSession := { id := 2, email := "b@x.com", name := some "B" }

/-- Context with both identities, session of admin 1. -/
def ctxOwner : TrpcCtx := { user := some user0, adminSession := some sess1 }

/-- Context with both identities, session of admin 2 (not the owner of
project 1). -/
def ctxIntruder : TrpcCtx := { user := some user0, adminSession := some sess2 }

/-- Context missing the end-user identity. -/
def ctxNoUser : TrpcCtx := { user := none, adminSession := some sess1 }

/-- A project owned by admin 1. -/
def proj1 : Project :=
  { id := 1, adminUserId := 1, name := "P1", description := none
    schema := none, isActive := true, createdAt := 0 }

/-- An active API key of project 1. -/
def key1 : ApiKey :=
  { id := 1, projectId := 1, key := "sk_1_abc", name := "K1"
    permissions := ["read", "write"], isActive := true, createdAt := 0 }

/-- Two data rows of project 1. -/
def datum1 : DynamicDatum :=
  { id := 1, projectId := 1, userId := none, dataType := none
    data := .num 1, isPublic := false, createdAt := 0, updatedAt := 0 }

/-- Second data row of project 1. -/
def datum2 : DynamicDatum :=
  { id := 2, projectId := 1, userId := none, dataType := none
    data := .num 2, isPublic := false, createdAt := 0, updatedAt := 0 }

/-- A live datastore with one project, one key and two data rows. -/
def st : DbState :=
  { users := [], adminUsers := [], projects := [proj1]
    apiKeys := [key1], dynamicData := [datum1, datum2] }

/-- An empty live datastore. -/
def empty : DbState :=
  { users := [], adminUsers := [], projects := [], apiKeys := [], dynamicData := [] }

/-- A stored end-user row whose openId will match the configured owner
openId in the upsert scenario. -/
def ownerRow : StoredUser :=
  { openId := "owner-1", name := none, email := none, loginMethod := none
    role := .user, lastSignedIn := 5, createdAt := 1 }

/-- A datastore holding only the owner's user row. -/
def stOwner : DbState :=
  { users := [ownerRow], adminUsers := [], projects := [], apiKeys := []
    dynamicData := [] }

/-- An upsert argument supplying nothing but the (owner) openId. -/
def uOwner : Db.InsertUser := { openId := "owner-1" }

/-- An admin account row; its hash is `hashFn "pw"`. -/
def adminRow : AdminUser :=
  { id := 1, email := "a@x.com", passwordHash := "h-pw", name := some "N"
    isActive := true, lastSignedIn := none, createdAt := 0 }

/-- A datastore holding only that admin account. -/
def stAdmin : DbState :=
  { users := [], adminUsers := [adminRow], projects := [], apiKeys := []
    dynamicData := [] }

/-- A deterministic stand-in for the bcrypt hash capability. -/
def hashFn (plain : String) : String := "h-" ++ plain

/-- The matching stand-in for the bcrypt compare capability. -/
def compareFn (plain hashed : String) : Bool := hashed == "h-" ++ plain

/-- A trivial procedure body for exercising the admin gate. -/
def bodyOk : TrpcCtx → Option DbState → Except RtErr Unit × Option DbState :=
  fun _ db => (.ok (), db)

end Fx

/-! ## Claims -/

/-- C8: every admin-gated procedure rejects with UNAUTHORIZED unless the
request context carries both a resolved end-user identity and a resolved
admin session; when either is absent the UNAUTHORIZED result is produced
uniformly in the procedure body (the body never runs), and when both are
present the wrapper defers to the body. -/
theorem c8_adminProcedure_requires_both_identities {α : Type}
    (body : TrpcCtx → Option DbState → Except RtErr α × Option DbState)
    (ctx : TrpcCtx) (db : Option DbState) :
    ((ctx.user = none ∨ ctx.adminSession = none) →
      Routers.adminProcedure body ctx db = (.error .UNAUTHORIZED, db))
    ∧ (∀ u s, ctx.user = some u → ctx.adminSession = some s →
      Routers.adminProcedure body ctx db = body ctx db) := by
  constructor
  · intro h
    rcases h with h | h <;> simp [Routers.adminProcedure, h]
  · intro u s hu hs
    simp [Routers.adminProcedure, hu, hs]

/-- Witness for C8 at a concrete context lacking the end-user identity. -/
theorem c8_adminProcedure_requires_both_identities_witness :
    (Fx.ctxNoUser.user = none ∨ Fx.ctxNoUser.adminSession = none)
    ∧ Routers.adminProcedure Fx.bodyOk Fx.ctxNoUser (some Fx.st) =
        (.error .UNAUTHORIZED, some Fx.st) :=
  ⟨Or.inl rfl,
   (c8_adminProcedure_requires_both_identities Fx.bodyOk Fx.ctxNoUser (some Fx.st)).1
     (Or.inl rfl)⟩

/-- C9: the REST create and update data endpoints answer
400 "Data field is required" for every falsy `data` value in the request
body — not only an absent field but also the JSON payloads 0, the empty
string, false and null — leaving the datastore untouched, so those JSON
values can never be stored or written as a payload through the REST
facade. -/
theorem c9_rest_rejects_falsy_payloads (st : DbState) (header : Option String)
    (body : Api.DataBody) (now : Nat) (dataId : Int) (k : ApiKey)
    (hauth : Api.authenticateApiKey st header = .ok k)
    (hfalsy : Api.bodyDataFalsy body = true) :
    Api.postData st header body now = (.fail 400 "Data field is required", st)
    ∧ Api.putData st header dataId body now = (.fail 400 "Data field is required", st)
    ∧ Api.bodyDataFalsy { data := none } = true
    ∧ Api.bodyDataFalsy { data := some (.num 0) } = true
    ∧ Api.bodyDataFalsy { data := some (.str "") } = true
    ∧ Api.bodyDataFalsy { data := some (.bool false) } = true
    ∧ Api.bodyDataFalsy { data := some .null } = true := by
  refine ⟨?_, ?_, rfl, rfl, rfl, rfl, rfl⟩
  · simp [Api.postData, hauth, hfalsy]
  · simp [Api.putData, hauth, hfalsy]

/-- Witness for C9: the zero payload is rejected through the live key. -/
theorem c9_rest_rejects_falsy_payloads_witness :
    Api.authenticateApiKey Fx.st (some "sk_1_abc") = .ok Fx.key1
    ∧ Api.bodyDataFalsy { data := some (.num 0) } = true
    ∧ Api.postData Fx.st (some "sk_1_abc") { data := some (.num 0) } 7 =
        (.fail 400 "Data field is required", Fx.st) :=
  ⟨rfl, rfl,
   (c9_rest_rejects_falsy_payloads Fx.st (some "sk_1_abc") { data := some (.num 0) }
     7 1 Fx.key1 rfl rfl).1⟩

/-- C10: in the REST list endpoint's response, `pagination.total` equals
the length of the returned page (the `data` array), and whenever the
number of rows stored for the key's project exceeds the effective limit,
`total` is strictly smaller than that stored count — it understates it. -/
theorem c10_pagination_total_is_page_length (st : DbState) (header : Option String)
    (qlimit qoffset : Option Int) (k : ApiKey) (payload : Api.ListPayload)
    (hauth : Api.authenticateApiKey st header = .ok k)
    (hresp : Api.listData st header qlimit qoffset = .ok 200 payload) :
    payload.pagination.total = payload.data.length
    ∧ ((Api.effectiveLimit qlimit).toNat < (st.dataOfProject k.projectId).length →
        payload.pagination.total < (st.dataOfProject k.projectId).length) := by
  have hpayload : payload =
      { data := st.dataPageOfProject k.projectId (Api.effectiveLimit qlimit).toNat
          (Api.effectiveOffset qoffset).toNat
        pagination :=
          { limit := Api.effectiveLimit qlimit
            offset := Api.effectiveOffset qoffset
            total := (st.dataPageOfProject k.projectId (Api.effectiveLimit qlimit).toNat
              (Api.effectiveOffset qoffset).toNat).length } } := by
    have := hresp
    simp [Api.listData, hauth] at this
    exact this.symm
  subst hpayload
  refine ⟨rfl, ?_⟩
  intro hcount
  have hlen : (st.dataPageOfProject k.projectId (Api.effectiveLimit qlimit).toNat
      (Api.effectiveOffset qoffset).toNat).length ≤ (Api.effectiveLimit qlimit).toNat := by
    simp [DbState.dataPageOfProject]
  exact lt_of_le_of_lt hlen hcount

/-- Witness for C10: two stored rows, an effective limit of 1. -/
theorem c10_pagination_total_is_page_length_witness :
    Api.authenticateApiKey Fx.st (some "sk_1_abc") = .ok Fx.key1
    ∧ (Api.effectiveLimit (some 1)).toNat < (Fx.st.dataOfProject Fx.key1.projectId).length
    ∧ ((Api.listData Fx.st (some "sk_1_abc") (some 1) none = .ok 200
        { data := [Fx.datum1]
          pagination := { limit := 1, offset := 0, total := 1 } })
    ∧ (1 : Nat) < (Fx.st.dataOfProject Fx.key1.projectId).length) :=
  ⟨rfl, by decide,
   ⟨rfl,
    (c10_pagination_total_is_page_length Fx.st (some "sk_1_abc") (some 1) none Fx.key1
      { data := [Fx.datum1]
        pagination := { limit := 1, offset := 0, total := 1 } } rfl rfl).2 (by decide)⟩⟩

/-- C4: `authenticateAdmin` returns null when no admin row with the email
exists, when the row's active flag is false, or when the password does not
verify against the stored hash; on success it refreshes that row's
last-signed-in to now and returns exactly the reduced record
`{id, email, name}` — the returned `AdminSession` type carries no
password-hash field at all. -/
theorem c4_authenticateAdmin_spec (comparePassword : String → String → Bool)
    (now : Nat) (st : DbState) (email password : String) :
    (Auth.findAdminByEmail st email = none →
      Auth.authenticateAdmin comparePassword now (some st) email password =
        (.ok none, some st))
    ∧ (∀ a, Auth.findAdminByEmail st email = some a → a.isActive = false →
      Auth.authenticateAdmin comparePassword now (some st) email password =
        (.ok none, some st))
    ∧ (∀ a, Auth.findAdminByEmail st email = some a → a.isActive = true →
      comparePassword password a.passwordHash = false →
      Auth.authenticateAdmin comparePassword now (some st) email password =
        (.ok none, some st))
    ∧ (∀ a, Auth.findAdminByEmail st email = some a → a.isActive = true →
      comparePassword password a.passwordHash = true →
      Auth.authenticateAdmin comparePassword now (some st) email password =
        (.ok (some { id := a.id, email := a.email, name := a.name }),
         some { st with adminUsers := st.adminUsers.map (fun x =>
           if x.id == a.id then { x with lastSignedIn := some now } else x) })) := by
  refine ⟨?_, ?_, ?_, ?_⟩
  · intro h
    simp [Auth.authenticateAdmin, h]
  · intro a ha hinact
    simp [Auth.authenticateAdmin, ha, hinact]
  · intro a ha hact hcmp
    simp [Auth.authenticateAdmin, ha, hact, hcmp]
  · intro a ha hact hcmp
    simp [Auth.authenticateAdmin, ha, hact, hcmp]

/-- Witness for C4: a successful login against the concrete admin row. -/
theorem c4_authenticateAdmin_spec_witness :
    Auth.findAdminByEmail Fx.stAdmin "a@x.com" = some Fx.adminRow
    ∧ Fx.adminRow.isActive = true
    ∧ Fx.compareFn "pw" Fx.adminRow.passwordHash = true
    ∧ Auth.authenticateAdmin Fx.compareFn 9 (some Fx.stAdmin) "a@x.com" "pw" =
        (.ok (some { id := 1, email := "a@x.com", name := some "N" }),
         some { Fx.stAdmin with adminUsers :=
           [{ Fx.adminRow with lastSignedIn := some 9 }] }) :=
  ⟨rfl, rfl, by decide,
   ((c4_authenticateAdmin_spec Fx.compareFn 9 Fx.stAdmin "a@x.com" "pw").2.2.2
     Fx.adminRow rfl rfl (by decide)).trans (by rfl)⟩

/-- Overwriting hash and name preserves each row's email, hence the
existence test on the email key. -/
theorem upsertAdminRow_map_any (rows : List AdminUser) (email h nm : String) :
    ((rows.map (fun a => if a.email == email then
        { a with passwordHash := h, name := some nm } else a)).any
      (fun a => a.email == email)) = rows.any (fun a => a.email == email) := by
  induction rows with
  | nil => rfl
  | cons a rest ih =>
    simp only [List.map_cons, List.any_cons, ih]
    cases hx : (a.email == email) <;> simp [hx]

/-- After `createAdminUser`, a row keyed on the email exists. -/
theorem upsertAdminRow_any (rows : List AdminUser) (email h nm : String)
    (newId : Int) (now : Nat) :
    ((Auth.upsertAdminRow rows email h nm newId now).any
      (fun a => a.email == email)) = true := by
  unfold Auth.upsertAdminRow
  by_cases hany : rows.any (fun a => a.email == email) = true
  · rw [if_pos hany, upsertAdminRow_map_any]
    exact hany
  · rw [if_neg hany]
    simp

/-- C5: `createAdminUser` upserts keyed on the unique email — a second
call with the same email leaves the row count unchanged and rewrites only
the password hash and the stored name of the matching row, and the stored
name is the local part of the email (the substring before the first `@`)
whenever the name argument is omitted. -/
theorem c5_createAdminUser_upserts_on_email (hash1 hash2 : String → String)
    (st st1 st2 : DbState) (email p1 p2 : String) (n1 n2 : Option String)
    (t1 t2 : Nat)
    (h1 : Auth.createAdminUser hash1 (some st) email p1 n1 t1 = (.ok (), some st1))
    (h2 : Auth.createAdminUser hash2 (some st1) email p2 n2 t2 = (.ok (), some st2)) :
    st2.adminUsers.length = st1.adminUsers.length
    ∧ st2.adminUsers = st1.adminUsers.map (fun a =>
        if a.email == email then
          { a with passwordHash := hash2 p2
                   name := some (Auth.defaultedName n2 email) }
        else a)
    ∧ (∀ a ∈ st2.adminUsers, a.email = email →
        a.name = some (Auth.defaultedName n2 email)
        ∧ a.passwordHash = hash2 p2)
    ∧ (n2 = none → Auth.defaultedName n2 email = Auth.localPart email) := by
  have hst1 : st1.adminUsers =
      Auth.upsertAdminRow st.adminUsers email (hash1 p1)
        (Auth.defaultedName n1 email) st.nextAdminId t1 := by
    have hsnd := Option.some.inj
      (show some ({ st with adminUsers :=
          (Auth.upsertAdminRow st.adminUsers email (hash1 p1)
            (Auth.defaultedName n1 email) st.nextAdminId t1) } : DbState) = some st1
        from congrArg Prod.snd h1)
    rw [← hsnd]
  have hex : st1.adminUsers.any (fun a => a.email == email) = true := by
    rw [hst1]
    exact upsertAdminRow_any _ _ _ _ _ _
  have hst2 : st2.adminUsers = st1.adminUsers.map (fun a =>
      if a.email == email then
        { a with passwordHash := hash2 p2
                 name := some (Auth.defaultedName n2 email) }
      else a) := by
    have hsnd := Option.some.inj
      (show some ({ st1 with adminUsers :=
          (Auth.upsertAdminRow st1.adminUsers email (hash2 p2)
            (Auth.defaultedName n2 email) st1.nextAdminId t2) } : DbState) = some st2
        from congrArg Prod.snd h2)
    rw [← hsnd]
    show Auth.upsertAdminRow st1.adminUsers email (hash2 p2)
      (Auth.defaultedName n2 email) st1.nextAdminId t2 = _
    unfold Auth.upsertAdminRow
    rw [if_pos hex]
  refine ⟨by rw [hst2]; exact List.length_map _ _, hst2, ?_, ?_⟩
  · intro a ha hemail
    rw [hst2] at ha
    rcases List.mem_map.mp ha with ⟨b, hbmem, hb⟩
    by_cases hbe : (b.email == email) = true
    · rw [if_pos hbe] at hb
      rw [← hb]
      exact ⟨rfl, rfl⟩
    · rw [if_neg hbe] at hb
      rw [← hb] at hemail
      exact absurd (beq_iff_eq.mpr hemail) hbe
  · intro hn
    simp [hn, Auth.defaultedName]

/-- Witness for C5: two calls with the same email on an initially empty
table; the second overwrites hash and name only, without a second row. -/
theorem c5_createAdminUser_upserts_on_email_witness :
    Auth.createAdminUser Fx.hashFn (some Fx.empty) "a@x.com" "p1" none 3 =
      (.ok (), some { Fx.empty with adminUsers :=
        [{ id := 1, email := "a@x.com", passwordHash := "h-p1", name := some "a"
           isActive := true, lastSignedIn := none, createdAt := 3 }] })
    ∧ Auth.createAdminUser Fx.hashFn
        (some { Fx.empty with adminUsers :=
          [{ id := 1, email := "a@x.com", passwordHash := "h-p1", name := some "a"
             isActive := true, lastSignedIn := none, createdAt := 3 }] })
        "a@x.com" "p2" (some "Bob") 4 =
      (.ok (), some { Fx.empty with adminUsers :=
        [{ id := 1, email := "a@x.com", passwordHash := "h-p2", name := some "Bob"
           isActive := true, lastSignedIn := none, createdAt := 3 }] })
    ∧ ([{ id := 1, email := "a@x.com", passwordHash := "h-p2", name := some "Bob"
          isActive := true, lastSignedIn := none, createdAt := 3 }] :
        List AdminUser).length =
      ([{ id := 1, email := "a@x.com", passwordHash := "h-p1", name := some "a"
          isActive := true, lastSignedIn := none, createdAt := 3 }] :
        List AdminUser).length :=
  ⟨rfl, rfl,
   (c5_createAdminUser_upserts_on_email Fx.hashFn Fx.hashFn Fx.empty
     { Fx.empty with adminUsers :=
       [{ id := 1, email := "a@x.com", passwordHash := "h-p1", name := some "a"
          isActive := true, lastSignedIn := none, createdAt := 3 }] }
     { Fx.empty with adminUsers :=
       [{ id := 1, email := "a@x.com", passwordHash := "h-p2", name := some "Bob"
          isActive := true, lastSignedIn := none, createdAt := 3 }] }
     "a@x.com" "p1" "p2" none (some "Bob") 3 4 rfl rfl).1⟩

/-- C2 counterexample: with no datastore connection, `getUserByOpenId`
does not throw the unavailability error — it returns normally with the
not-found result, contradicting the claim that every operation except
`upsertUser` fails with an unavailability error. -/
theorem c2_getUserByOpenId_does_not_throw :
    Db.getUserByOpenId none "alice" = .ok none
    ∧ Db.getUserByOpenId none "alice" ≠ .error Db.unavailable := by
  refine ⟨rfl, ?_⟩
  intro h
  exact Except.noConfusion h

/-- C2 (amended): with no datastore connection, every persistence-layer
operation except `upsertUser` and `getUserByOpenId` fails with the
unavailability error; `upsertUser` (given its required non-empty openId)
and `getUserByOpenId` return normally without touching the datastore. -/
theorem c2_unavailability_asymmetry (ownerOpenId : String) (now : Nat)
    (u : Db.InsertUser) (hopen : u.openId ≠ "") (openId nm key : String)
    (adminId projectId dataId : Int) (desc : Option String) (sc : Option Json)
    (up : ProjectUpdates) (perms : Option (List String)) (j : Json)
    (uid dt : Option String) (pub : Option Bool) (lim off : Nat) :
    Db.upsertUser ownerOpenId now u none = (.ok (), none)
    ∧ Db.getUserByOpenId none openId = .ok none
    ∧ Db.createProject none adminId nm desc sc now = (.error Db.unavailable, none)
    ∧ Db.getProjectsByAdminId none adminId = .error Db.unavailable
    ∧ Db.getProjectById none projectId = .error Db.unavailable
    ∧ Db.updateProject none projectId up = (.error Db.unavailable, none)
    ∧ Db.deleteProject none projectId = (.error Db.unavailable, none)
    ∧ Db.createApiKey none projectId nm perms key now = (.error Db.unavailable, none)
    ∧ Db.getApiKeysByProjectId none projectId = .error Db.unavailable
    ∧ Db.getApiKeyByKey none key = .error Db.unavailable
    ∧ Db.revokeApiKey none dataId = (.error Db.unavailable, none)
    ∧ Db.insertDynamicData none projectId j uid dt pub now = (.error Db.unavailable, none)
    ∧ Db.getDynamicDataByProjectId none projectId lim off = .error Db.unavailable
    ∧ Db.getDynamicDataById none dataId = .error Db.unavailable
    ∧ Db.updateDynamicData none dataId j now = (.error Db.unavailable, none)
    ∧ Db.deleteDynamicData none dataId = (.error Db.unavailable, none)
    ∧ Db.searchDynamicData none projectId uid dt = .error Db.unavailable := by
  refine ⟨?_, rfl, rfl, rfl, rfl, rfl, rfl, rfl, rfl, rfl, rfl, rfl, rfl, rfl,
    rfl, rfl, rfl⟩
  have hbeq : (u.openId == "") = false := beq_eq_false_iff_ne.mpr hopen
  simp [Db.upsertUser, hbeq]

/-- Witness for C2 at concrete arguments. -/
theorem c2_unavailability_asymmetry_witness :
    (Fx.uOwner.openId ≠ "")
    ∧ Db.upsertUser "owner-1" 10 Fx.uOwner none = (.ok (), none)
    ∧ Db.getProjectById none 1 = .error Db.unavailable :=
  ⟨by decide,
   (c2_unavailability_asymmetry "owner-1" 10 Fx.uOwner (by decide) "oid" "nm" "k"
     1 1 1 none none { name := none, description := none, schema := none }
     none .null none none none 100 0).1,
   (c2_unavailability_asymmetry "owner-1" 10 Fx.uOwner (by decide) "oid" "nm" "k"
     1 1 1 none none { name := none, description := none, schema := none }
     none .null none none none 100 0).2.2.2.2.1⟩

/-- C6 counterexample: a limit parameter that parses to 0 is neither
absent nor unparsable, so the claimed rule ("the query's limit clamped to
a maximum of 1000") yields 0, yet the code's `parseInt(...) || 100`
treats the falsy 0 as if the parameter were missing and yields 100. -/
theorem c6_limit_zero_defaults :
    Api.effectiveLimit (some 0) = 100
    ∧ Api.claimedEffectiveLimit (some 0) = 0
    ∧ Api.effectiveLimit (some 0) ≠ Api.claimedEffectiveLimit (some 0) := by
  refine ⟨rfl, rfl, ?_⟩
  decide

/-- C6 (amended): the effective limit is the query's limit clamped to a
maximum of 1000, defaulting to 100 when the limit parameter is absent,
unparsable, or parses to 0; a requested limit above 1000 is reduced to
exactly 1000; the effective offset defaults to 0 when absent, unparsable
or zero, and the list endpoint reports exactly these effective values. -/
theorem c6_effective_pagination (st : DbState) (header : Option String)
    (k : ApiKey) (qlimit qoffset : Option Int) (v : Int) (hv : 1000 < v)
    (hauth : Api.authenticateApiKey st header = .ok k) :
    Api.effectiveLimit none = 100
    ∧ Api.effectiveLimit (some 0) = 100
    ∧ (∀ w : Int, w ≠ 0 → Api.effectiveLimit (some w) = min w 1000)
    ∧ Api.effectiveLimit (some v) = 1000
    ∧ Api.effectiveOffset none = 0
    ∧ (∀ w : Int, Api.effectiveOffset (some w) = if w = 0 then 0 else w)
    ∧ (∀ payload, Api.listData st header qlimit qoffset = .ok 200 payload →
        payload.pagination.limit = Api.effectiveLimit qlimit
        ∧ payload.pagination.offset = Api.effectiveOffset qoffset) := by
  refine ⟨rfl, rfl, ?_, ?_, rfl, ?_, ?_⟩
  · intro w hw
    simp [Api.effectiveLimit, Api.jsParseIntOr, hw]
  · have hvne : v ≠ 0 := by omega
    have : Api.jsParseIntOr (some v) 100 = v := by
      simp [Api.jsParseIntOr, hvne]
    simp only [Api.effectiveLimit, this]
    omega
  · intro w
    by_cases hw : w = 0 <;> simp [Api.effectiveOffset, Api.jsParseIntOr, hw]
  · intro payload hresp
    simp [Api.listData, hauth] at hresp
    rw [← hresp]
    exact ⟨rfl, rfl⟩

/-- Witness for C6: a request for 2000 rows through the live key is
clamped to exactly 1000. -/
theorem c6_effective_pagination_witness :
    (1000 : Int) < 2000
    ∧ Api.authenticateApiKey Fx.st (some "sk_1_abc") = .ok Fx.key1
    ∧ Api.effectiveLimit (some 2000) = 1000
    ∧ Api.effectiveLimit (some 0) = 100 :=
  ⟨by decide, rfl,
   (c6_effective_pagination Fx.st (some "sk_1_abc") Fx.key1 none none 2000
     (by decide) rfl).2.2.2.1,
   (c6_effective_pagination Fx.st (some "sk_1_abc") Fx.key1 none none 2000
     (by decide) rfl).2.1⟩

/-- C7 counterexample: a present-but-empty `X-API-Key` header resolves to
no key record, so the claim demands 401 "Invalid or revoked API key",
but the code's falsy check `if (!apiKey)` fires first and answers
401 "Missing API key". -/
theorem c7_empty_header_counts_as_missing :
    (some "" ≠ (none : Option String))
    ∧ Fx.st.findApiKeyByKey "" = none
    ∧ Api.authenticateApiKey Fx.st (some "") = .error (401, "Missing API key")
    ∧ Api.authenticateApiKey Fx.st (some "") ≠
        .error (401, "Invalid or revoked API key") := by
  refine ⟨by simp, rfl, rfl, ?_⟩
  intro h
  have h2 : (Except.error (401, "Missing API key") : Except (Nat × String) ApiKey) =
      .error (401, "Invalid or revoked API key") := h
  injection h2 with h3
  have h4 := congrArg Prod.snd h3
  exact (by decide : ("Missing API key" : String) ≠ "Invalid or revoked API key") h4

/-- C7 (amended): an absent or present-but-empty `X-API-Key` header gets
401 "Missing API key"; a present non-empty header that resolves to no key
record, or to an inactive one, gets 401 "Invalid or revoked API key";
otherwise the middleware succeeds with the resolved key, whose project id
the list handler then serves. -/
theorem c7_api_key_authentication (st : DbState) (header : Option String) :
    ((header = none ∨ header = some "") →
      Api.authenticateApiKey st header = .error (401, "Missing API key"))
    ∧ (∀ s, header = some s → s ≠ "" → st.findApiKeyByKey s = none →
      Api.authenticateApiKey st header = .error (401, "Invalid or revoked API key"))
    ∧ (∀ s k, header = some s → s ≠ "" → st.findApiKeyByKey s = some k →
      k.isActive = false →
      Api.authenticateApiKey st header = .error (401, "Invalid or revoked API key"))
    ∧ (∀ s k, header = some s → s ≠ "" → st.findApiKeyByKey s = some k →
      k.isActive = true → Api.authenticateApiKey st header = .ok k)
    ∧ (∀ k qlimit qoffset, Api.authenticateApiKey st header = .ok k →
      Api.listData st header qlimit qoffset = .ok 200
        { data := st.dataPageOfProject k.projectId
            (Api.effectiveLimit qlimit).toNat (Api.effectiveOffset qoffset).toNat
          pagination :=
            { limit := Api.effectiveLimit qlimit
              offset := Api.effectiveOffset qoffset
              total := (st.dataPageOfProject k.projectId
                (Api.effectiveLimit qlimit).toNat
                (Api.effectiveOffset qoffset).toNat).length } }) := by
  refine ⟨?_, ?_, ?_, ?_, ?_⟩
  · intro h
    rcases h with h | h <;> simp [Api.authenticateApiKey, h]
  · intro s hs hne hfind
    simp [Api.authenticateApiKey, hs, hne, hfind]
  · intro s k hs hne hfind hact
    simp [Api.authenticateApiKey, hs, hne, hfind, hact]
  · intro s k hs hne hfind hact
    simp [Api.authenticateApiKey, hs, hne, hfind, hact]
  · intro k qlimit qoffset hauth
    simp [Api.listData, hauth]

/-- Witness for C7: the live key authenticates and binds project 1. -/
theorem c7_api_key_authentication_witness :
    ((some "sk_1_abc" : Option String) = some "sk_1_abc")
    ∧ ("sk_1_abc" ≠ "")
    ∧ Fx.st.findApiKeyByKey "sk_1_abc" = some Fx.key1
    ∧ Fx.key1.isActive = true
    ∧ Api.authenticateApiKey Fx.st (some "sk_1_abc") = .ok Fx.key1 :=
  ⟨rfl, by decide, rfl, rfl,
   (c7_api_key_authentication Fx.st (some "sk_1_abc")).2.2.2.1 "sk_1_abc" Fx.key1
     rfl (by decide) rfl rfl⟩

/-- C3 counterexample: an upsert of an already-present user supplying
nothing but the (owner-matching) openId changes the stored role to admin —
a field that was not supplied — and leaves last-signed-in at its old value
instead of refreshing it to now, although no field at all was supplied. -/
theorem c3_owner_role_elevated_unsolicited :
    (Fx.uOwner.name = none ∧ Fx.uOwner.email = none ∧ Fx.uOwner.loginMethod = none
      ∧ Fx.uOwner.role = none ∧ Fx.uOwner.lastSignedIn = none)
    ∧ Db.upsertUser "owner-1" 10 Fx.uOwner (some Fx.stOwner) =
        (.ok (), some { Fx.stOwner with users := [{ Fx.ownerRow with role := .admin }] })
    ∧ ({ Fx.ownerRow with role := Role.admin }).role ≠ Fx.ownerRow.role
    ∧ ({ Fx.ownerRow with role := Role.admin }).lastSignedIn = Fx.ownerRow.lastSignedIn
    ∧ Fx.ownerRow.lastSignedIn ≠ 10 :=
  ⟨⟨rfl, rfl, rfl, rfl, rfl⟩, rfl, by decide, rfl, by decide⟩

/-- C3 (amended): on repeat sight, `upsertUser` rewrites exactly the rows
matching the openId, updating only the supplied fields — except that when
`role` is not supplied and the openId equals the configured owner openId,
`role` is additionally set to admin; and last-signed-in is refreshed to
now exactly when nothing at all was supplied and that owner-role case does
not apply. -/
theorem c3_repeat_sight_updates_supplied_fields (ownerOpenId : String)
    (now : Nat) (u : Db.InsertUser) (st : DbState) (hopen : u.openId ≠ "")
    (hex : st.users.any (fun r => r.openId == u.openId) = true) :
    ∃ upd : StoredUser → StoredUser,
      Db.upsertUser ownerOpenId now u (some st) =
        (.ok (), some { st with users := st.users.map (fun r =>
          if r.openId == u.openId then upd r else r) })
      ∧ ∀ r : StoredUser,
          (upd r).openId = r.openId
          ∧ (upd r).createdAt = r.createdAt
          ∧ (upd r).name = (match u.name with | some v => v | none => r.name)
          ∧ (upd r).email = (match u.email with | some v => v | none => r.email)
          ∧ (upd r).loginMethod =
              (match u.loginMethod with | some v => v | none => r.loginMethod)
          ∧ (upd r).role = (match u.role with
              | some v => v
              | none => if u.openId = ownerOpenId then .admin else r.role)
          ∧ (upd r).lastSignedIn = (match u.lastSignedIn with
              | some t => t
              | none =>
                if u.name = none ∧ u.email = none ∧ u.loginMethod = none
                    ∧ u.role = none ∧ ¬(u.openId = ownerOpenId)
                then now else r.lastSignedIn) := by
  refine ⟨fun r => Db.applyUserUpdate r (Db.computeUpdateSet ownerOpenId now u),
    ?_, ?_⟩
  · have hbeq : (u.openId == "") = false := beq_eq_false_iff_ne.mpr hopen
    simp [Db.upsertUser, hbeq, hex]
  · intro r
    obtain ⟨uo, n, e, l, ro, ls⟩ := u
    rcases n with _ | n <;> rcases e with _ | e <;> rcases l with _ | l <;>
      rcases ro with _ | ro <;> rcases ls with _ | ls <;>
      cases ho : (uo == ownerOpenId) <;>
      simp_all [Db.applyUserUpdate, Db.computeUpdateSet]

/-- Witness for C3 (amended) at the concrete owner scenario. -/
theorem c3_repeat_sight_updates_supplied_fields_witness :
    (Fx.uOwner.openId ≠ "")
    ∧ Fx.stOwner.users.any (fun r => r.openId == Fx.uOwner.openId) = true
    ∧ ∃ upd : StoredUser → StoredUser,
        Db.upsertUser "owner-1" 10 Fx.uOwner (some Fx.stOwner) =
          (.ok (), some { Fx.stOwner with users := Fx.stOwner.users.map (fun r =>
            if r.openId == Fx.uOwner.openId then upd r else r) })
        ∧ (upd Fx.ownerRow).role = Role.admin
        ∧ (upd Fx.ownerRow).lastSignedIn = Fx.ownerRow.lastSignedIn := by
  refine ⟨by decide, rfl, ?_⟩
  obtain ⟨upd, heq, hfields⟩ :=
    c3_repeat_sight_updates_supplied_fields "owner-1" 10 Fx.uOwner Fx.stOwner
      (by decide) rfl
  refine ⟨upd, heq, ?_, ?_⟩
  · have h := (hfields Fx.ownerRow).2.2.2.2.2.1
    simpa [Fx.uOwner] using h
  · have h := (hfields Fx.ownerRow).2.2.2.2.2.2
    simpa [Fx.uOwner] using h

/-- C1 counterexample: under the session of admin 2, who does not own
project 1, `apiKeys.revoke` on project 1's key succeeds and revokes it —
it does not yield FORBIDDEN, because the revoke handler never re-fetches
the owning project. -/
theorem c1_revoke_skips_ownership_check :
    Fx.st.findProjectById Fx.key1.projectId = some Fx.proj1
    ∧ Fx.proj1.adminUserId ≠ Fx.sess2.id
    ∧ Fx.ctxIntruder.adminSession = some Fx.sess2
    ∧ Routers.apiKeysRevoke Fx.ctxIntruder 1 (some Fx.st) =
        (.ok (), some (Fx.st.revokeApiKeyRow 1))
    ∧ (Routers.apiKeysRevoke Fx.ctxIntruder 1 (some Fx.st)).1 ≠
        .error .FORBIDDEN := by
  refine ⟨rfl, by decide, rfl, rfl, ?_⟩
  intro h
  have h2 : (Except.ok () : Except RtErr Unit) = .error .FORBIDDEN := h
  exact Except.noConfusion h2

/-- C1 (amended): with both identities present, the eight operations
`projects.get/update/delete`, `apiKeys.list/create` and
`data.list/create/search` re-fetch the target project and yield FORBIDDEN,
leaving the datastore untouched, whenever that project is absent or owned
by a different admin; but `apiKeys.revoke`, `data.update` and
`data.delete` perform no ownership check at all and execute their
mutation regardless of the owner. -/
theorem c1_ownership_checks (ctx : TrpcCtx) (endUser : StoredUser)
    (s : AdminSession) (st : DbState) (hu : ctx.user = some endUser)
    (hs : ctx.adminSession = some s) (pid kid did : Int)
    (up : ProjectUpdates) (nm key : String) (perms : Option (List String))
    (j : Json) (uid dt : Option String) (pub : Option Bool)
    (now lim off : Nat)
    (hown : st.findProjectById pid = none
      ∨ ∃ p, st.findProjectById pid = some p ∧ p.adminUserId ≠ s.id) :
    Routers.projectsGet ctx pid (some st) = (.error .FORBIDDEN, some st)
    ∧ Routers.projectsUpdate ctx pid up (some st) = (.error .FORBIDDEN, some st)
    ∧ Routers.projectsDelete ctx pid (some st) = (.error .FORBIDDEN, some st)
    ∧ Routers.apiKeysList ctx pid (some st) = (.error .FORBIDDEN, some st)
    ∧ Routers.apiKeysCreate ctx pid nm perms key now (some st) =
        (.error .FORBIDDEN, some st)
    ∧ Routers.dataList ctx pid lim off (some st) = (.error .FORBIDDEN, some st)
    ∧ Routers.dataCreate ctx pid j uid dt pub now (some st) =
        (.error .FORBIDDEN, some st)
    ∧ Routers.dataSearch ctx pid uid dt (some st) = (.error .FORBIDDEN, some st)
    ∧ Routers.apiKeysRevoke ctx kid (some st) =
        (.ok (), some (st.revokeApiKeyRow kid))
    ∧ Routers.dataUpdate ctx did j now (some st) =
        (.ok (), some (st.setDatum did j now))
    ∧ Routers.dataDelete ctx did (some st) =
        (.ok (), some (st.removeDatum did)) := by
  rcases hown with hnone | ⟨p, hp, hne⟩
  · refine ⟨?_, ?_, ?_, ?_, ?_, ?_, ?_, ?_, ?_, ?_, ?_⟩ <;>
      simp [Routers.projectsGet, Routers.projectsUpdate, Routers.projectsDelete,
        Routers.apiKeysList, Routers.apiKeysCreate, Routers.apiKeysRevoke,
        Routers.dataList, Routers.dataCreate, Routers.dataUpdate,
        Routers.dataDelete, Routers.dataSearch, Routers.adminProcedure,
        hu, hs, Db.getProjectById, hnone, Db.revokeApiKey,
        Db.updateDynamicData, Db.deleteDynamicData]
  · have howns : Routers.sessionOwns ctx p = false := by
      simp [Routers.sessionOwns, hs]
      exact hne
    refine ⟨?_, ?_, ?_, ?_, ?_, ?_, ?_, ?_, ?_, ?_, ?_⟩ <;>
      simp [Routers.projectsGet, Routers.projectsUpdate, Routers.projectsDelete,
        Routers.apiKeysList, Routers.apiKeysCreate, Routers.apiKeysRevoke,
        Routers.dataList, Routers.dataCreate, Routers.dataUpdate,
        Routers.dataDelete, Routers.dataSearch, Routers.adminProcedure,
        hu, hs, Db.getProjectById, hp, howns, Db.revokeApiKey,
        Db.updateDynamicData, Db.deleteDynamicData]

/-- Witness for C1 (amended): admin 2's session against project 1. -/
theorem c1_ownership_checks_witness :
    Fx.ctxIntruder.user = some Fx.user0
    ∧ Fx.ctxIntruder.adminSession = some Fx.sess2
    ∧ (∃ p, Fx.st.findProjectById 1 = some p ∧ p.adminUserId ≠ Fx.sess2.id)
    ∧ Routers.projectsGet Fx.ctxIntruder 1 (some Fx.st) =
        (.error .FORBIDDEN, some Fx.st)
    ∧ Routers.dataSearch Fx.ctxIntruder 1 none none (some Fx.st) =
        (.error .FORBIDDEN, some Fx.st)
    ∧ Routers.dataDelete Fx.ctxIntruder 2 (some Fx.st) =
        (.ok (), some (Fx.st.removeDatum 2)) := by
  have h := c1_ownership_checks Fx.ctxIntruder Fx.user0 Fx.sess2 Fx.st rfl rfl
    1 1 2 { name := none, description := none, schema := none } "nm" "k" none
    .null none none none 0 100 0
    (Or.inr ⟨Fx.proj1, rfl, by decide⟩)
  exact ⟨rfl, rfl, ⟨Fx.proj1, rfl, by decide⟩, h.1, h.2.2.2.2.2.2.2.1,
    h.2.2.2.2.2.2.2.2.2.2⟩
